import Mathlib

/-!
Verification of the cltk tokenization core: the language-dispatching word
tokenizer (`cltk/tokenize/word.py`) and the sentence-tokenizer trainer
(`cltk/tokenize/utils.py`), shallowly embedded in Lean 4.

External capabilities (NLTK Treebank and Punkt, PyArabic, the Akkadian
sign/word segmenters, the Greek sentence tokenizer and the per-language
regex pattern lists, all of which live outside the two source files) are
modelled as parameters bundled in the structures `Ext` and `ExtPunkt`:
theorems quantify over every possible behaviour of those capabilities,
so they hold for the real ones in particular.
-/

namespace CLTK

/-- Python `str.split()`: split on runs of whitespace, discarding empty
pieces.  Used by `BaseRegexWordTokenizer.tokenize` (`text.split()`). -/
def pySplit (s : String) : List String :=
  (s.split fun c => c.isWhitespace).filter fun t => t ≠ ""

/-- Python truthiness of an optional list: `None` and `[]` are falsy,
a non-empty list is truthy. -/
def truthy {α : Type} (o : Option (List α)) : Bool :=
  match o with
  | none => false
  | some l => !l.isEmpty

/-- External capabilities used by the word-tokenizer dispatcher in
`word.py`: `re.sub` (Python regex substitution), the Akkadian word and
sign segmenters, PyArabic `araby.tokenize`, NLTK `TreebankWordTokenizer`,
the Greek regex sentence tokenizer, and the four per-language regex
pattern lists imported from `params` modules that are outside `src/`.
Each pattern list entry is a (match, replacement) pair, as in the repo. -/
structure Ext where
  re_sub : String → String → String → String
  tokenize_akkadian_words : String → List String
  tokenize_akkadian_signs : String → List String
  araby_tokenize : String → List String
  treebank_tokenize : String → List String
  greek_sent_tokenize : String → List String
  oldFrenchPatterns : List (String × String)
  oldNorsePatterns : List (String × String)
  middleEnglishPatterns : List (String × String)
  middleHighGermanPatterns : List (String × String)

/-- Trivial instantiation of the external capabilities, used only to
evaluate the dispatcher at concrete inputs whose result does not depend
on the externals. -/
def extDefault : Ext where
  re_sub := fun _ _ t => t
  tokenize_akkadian_words := fun _ => []
  tokenize_akkadian_signs := fun _ => []
  araby_tokenize := fun _ => []
  treebank_tokenize := fun _ => []
  greek_sent_tokenize := fun _ => []
  oldFrenchPatterns := []
  oldNorsePatterns := []
  middleEnglishPatterns := []
  middleHighGermanPatterns := []

/-- Embedding of `BaseRegexWordTokenizer` (`word.py` lines 169-194):
a language tag and an ordered list of (pattern, replacement) pairs. -/
structure BaseRegexWordTokenizer where
  language : String
  patterns : List (String × String)
  deriving Repr

/-- Embedding of `BaseRegexWordTokenizer.tokenize`: apply each
substitution in order to the whole text, then `text.split()`. -/
def BaseRegexWordTokenizer.tokenize (E : Ext) (t : BaseRegexWordTokenizer)
    (text : String) : List String :=
  pySplit (t.patterns.foldl (fun acc p => E.re_sub p.1 p.2 acc) text)

/-- Embedding of `BasePunktWordTokenizer.tokenize` as instantiated for
Greek (`word.py` lines 157-166 with `GreekRegexSentenceTokenizer`):
split into sentences, Treebank-tokenize each sentence, flatten. -/
def basePunktTokenizeGreek (E : Ext) (text : String) : List String :=
  ((E.greek_sent_tokenize text).map E.treebank_tokenize).flatten

/-- Construction-time failure of the dispatcher.  The source aborts
`WordTokenizer.__init__` with an `AssertionError` whose message names the
rejected language (`word.py` lines 49-50); the spec calls this failure
`UnsupportedLanguage`.  The constructor propagates it with no partial
object returned to the caller. -/
inductive InitError where
  | unsupportedLanguage (language : String)
  deriving Repr, DecidableEq

/-- Embedding of the `WordTokenizer` dispatcher object: after
construction it carries only the (possibly alias-resolved) language. -/
structure WordTokenizer where
  language : String
  deriving Repr, DecidableEq

/-- Languages accepted by the dispatcher (`word.py` lines 36-48). -/
def available_languages : List String :=
  ["akkadian", "arabic", "french", "greek", "latin", "middle_english",
   "middle_french", "middle_high_german", "old_french", "old_norse",
   "sanskrit", "multilingual"]

/-- Embedding of `WordTokenizer.__init__` (`word.py` lines 32-60).
Returns the constructed dispatcher together with the list of warning
messages printed/logged (non-fatal notices), or the construction-time
error.  The alias `french` is rewritten to `old_french` with a warning;
`latin` keeps its name but warns of deprecation. -/
def WordTokenizer.init (language : String) :
    Except InitError (WordTokenizer × List String) :=
  if language ∈ available_languages then
    if language = "french" then
      Except.ok ({ language := "old_french" },
        ["`french` defaults to `old_french`. `middle_french` also available."])
    else if language = "latin" then
      Except.ok ({ language := "latin" },
        ["This method for Latin is deprecated. Instead, use `from cltk.tokenize.latin.word import WordTokenizer`."])
    else
      Except.ok ({ language := language }, [])
  else
    Except.error (InitError.unsupportedLanguage language)

/-- Embedding of `WordTokenizer.tokenize` (`word.py` lines 62-106):
the if/elif dispatch on `self.language`. -/
def WordTokenizer.tokenize (E : Ext) (w : WordTokenizer) (s : String) :
    List String :=
  if w.language = "akkadian" then
    E.tokenize_akkadian_words s
  else if w.language = "arabic" then
    E.araby_tokenize s
  else if w.language = "french" then
    (BaseRegexWordTokenizer.mk "old_french" E.oldFrenchPatterns).tokenize E s
  else if w.language = "greek" then
    basePunktTokenizeGreek E s
  else if w.language = "latin" then
    E.treebank_tokenize s
  else if w.language = "old_norse" then
    (BaseRegexWordTokenizer.mk "old_norse" E.oldNorsePatterns).tokenize E s
  else if w.language = "middle_english" then
    (BaseRegexWordTokenizer.mk "middle_english" E.middleEnglishPatterns).tokenize E s
  else if w.language = "middle_french" then
    (BaseRegexWordTokenizer.mk "old_french" E.oldFrenchPatterns).tokenize E s
  else if w.language = "middle_high_german" then
    (BaseRegexWordTokenizer.mk "middle_high_german" E.middleHighGermanPatterns).tokenize E s
  else if w.language = "old_french" then
    (BaseRegexWordTokenizer.mk "old_french" E.oldFrenchPatterns).tokenize E s
  else
    E.treebank_tokenize s

/-- Result type of `WordTokenizer.tokenize_sign` (`word.py` lines
108-114).  The Python method returns either a list of sign tokens (for
`akkadian`) or a plain descriptive string; the sum type records which. -/
inductive SignResult where
  | tokens (ts : List String)
  | sentinel (msg : String)
  deriving Repr, DecidableEq

/-- Embedding of `WordTokenizer.tokenize_sign` (`word.py` lines 108-114):
for `akkadian` it segments signs, otherwise it RETURNS the descriptive
string — it does not raise. -/
def WordTokenizer.tokenize_sign (E : Ext) (w : WordTokenizer)
    (word : String) : SignResult :=
  if w.language = "akkadian" then
    SignResult.tokens (E.tokenize_akkadian_signs word)
  else
    SignResult.sentinel "Language must be written using cuneiform."

/-!
Embedding of `cltk/tokenize/utils.py`: `BaseSentenceTokenizerTrainer`.

`train_sentence_tokenizer` does `language_punkt_vars = PunktLanguageVars`
(the NLTK class itself, not an instance) and assigns
`language_punkt_vars.sent_end_chars`, i.e. it mutates class-level state
shared by every trainer instance in the process.  The embedding makes
that shared class-level state an explicit value of type
`PunktLanguageVarsState` threaded through the call.
-/

/-- Shared class-level state of NLTK `PunktLanguageVars`: the
sentence-ending characters.  `utils.py` line 51/53 assigns this class
attribute, so it persists across trainer instances. -/
structure PunktLanguageVarsState where
  sent_end_chars : List String
  deriving Repr, DecidableEq

/-- NLTK default of `PunktLanguageVars.sent_end_chars`: a fresh process
starts with the period, question and exclamation marks. -/
def initialPunktState : PunktLanguageVarsState :=
  { sent_end_chars := [".", "?", "!"] }

/-- Parameters produced by NLTK Punkt training, as far as the source
touches them: the abbreviation set (`tokenizer._params.abbrev_types`,
accessed on `utils.py` line 64).  Modelled as a list with set
(membership) semantics. -/
structure PunktParams where
  abbrev_types : List String
  deriving Repr, DecidableEq

/-- Embedding of NLTK `PunktSentenceTokenizer` as far as the source
touches it: it carries its trained parameters. -/
structure PunktSentenceTokenizer where
  params : PunktParams
  deriving Repr, DecidableEq

/-- External capability: the NLTK Punkt statistical training run
(`PunktTrainer(...)` followed by `get_params()`), out of scope per the
spec.  It sees the training text and the sentence-ending characters
configured in the shared `PunktLanguageVars` state at call time. -/
structure ExtPunkt where
  punkt_train : String → List String → PunktParams

/-- Trivial instantiation of the Punkt training capability, used only to
evaluate the trainer at concrete inputs. -/
def extPunktDefault : ExtPunkt where
  punkt_train := fun _ _ => { abbrev_types := [] }

/-- Python-level runtime error raised inside `train_sentence_tokenizer`:
`self.punctuation + self.strict_punctuation` with `strict_punctuation`
left as `None` raises `TypeError` (`utils.py` line 51). -/
inductive PyError where
  | typeError (msg : String)
  deriving Repr, DecidableEq

/-- Embedding of `BaseSentenceTokenizerTrainer.__init__`
(`utils.py` lines 17-42): the stored options. -/
structure BaseSentenceTokenizerTrainer where
  language : Option String := none
  punctuation : Option (List String) := none
  strict : Bool := false
  strict_punctuation : Option (List String) := none
  abbreviations : Option (List String) := none
  deriving Repr, DecidableEq

/-- Everything observable about one `train_sentence_tokenizer` call: the
returned tokenizer, the sentence-ending characters the Punkt trainer saw
(the value of the shared class attribute when `PunktTrainer` ran, i.e.
after the punctuation-setting step and before training), and the shared
class-level state as the call leaves it. -/
structure TrainOutcome where
  tokenizer : PunktSentenceTokenizer
  observed : List String
  state : PunktLanguageVarsState
  deriving Repr, DecidableEq

/-- The punctuation-setting step of `train_sentence_tokenizer`
(`utils.py` lines 48-53): when `self.punctuation` is truthy, assign the
shared `sent_end_chars` to `punctuation + strict_punctuation` (strict)
or `punctuation` (non-strict); `list + None` raises `TypeError`. -/
def setPunctuation (tr : BaseSentenceTokenizerTrainer)
    (st : PunktLanguageVarsState) :
    Except PyError PunktLanguageVarsState :=
  if truthy tr.punctuation then
    if tr.strict then
      match tr.strict_punctuation with
      | some sp => Except.ok { sent_end_chars := tr.punctuation.getD [] ++ sp }
      | none => Except.error (PyError.typeError
          "can only concatenate list (not NoneType) to list")
    else
      Except.ok { sent_end_chars := tr.punctuation.getD [] }
  else
    Except.ok st

/-- Embedding of `BaseSentenceTokenizerTrainer.train_sentence_tokenizer`
(`utils.py` lines 44-66): set the shared punctuation state, run Punkt
training on the text with that state, build the tokenizer from the
trained parameters, then add each explicit abbreviation (when the
`abbreviations` option is truthy) directly into the trained
parameters. -/
def BaseSentenceTokenizerTrainer.train_sentence_tokenizer (P : ExtPunkt)
    (tr : BaseSentenceTokenizerTrainer) (st : PunktLanguageVarsState)
    (text : String) : Except PyError TrainOutcome :=
  match setPunctuation tr st with
  | Except.error e => Except.error e
  | Except.ok st1 =>
    let params := P.punkt_train text st1.sent_end_chars
    let tokenizer : PunktSentenceTokenizer :=
      if truthy tr.abbreviations then
        { params := { abbrev_types :=
            params.abbrev_types ++ tr.abbreviations.getD [] } }
      else
        { params := params }
    Except.ok { tokenizer := tokenizer, observed := st1.sent_end_chars,
                state := st1 }

/-!
Strategy selection, for the dispatch-purity claim: the tokenization
strategy the dispatcher applies, as a tagged union, and the static map
from language identifier to strategy.  `strategyOf` mirrors the if/elif
chain of `WordTokenizer.tokenize` branch for branch; it takes no text.
-/

/-- Tagged union of the tokenization strategy variants appearing as the
branches of `WordTokenizer.tokenize` (`word.py` lines 62-106). -/
inductive Strategy where
  | akkadianScript
  | arabyScript
  | regexOldFrench
  | punktGreek
  | treebankLatin
  | regexOldNorse
  | regexMiddleEnglish
  | regexMiddleHighGerman
  | treebankFallback
  deriving Repr, DecidableEq

/-- Run one strategy variant on a text, with the externals `E`. -/
def applyStrategy (E : Ext) (st : Strategy) (s : String) : List String :=
  match st with
  | Strategy.akkadianScript => E.tokenize_akkadian_words s
  | Strategy.arabyScript => E.araby_tokenize s
  | Strategy.regexOldFrench =>
      (BaseRegexWordTokenizer.mk "old_french" E.oldFrenchPatterns).tokenize E s
  | Strategy.punktGreek => basePunktTokenizeGreek E s
  | Strategy.treebankLatin => E.treebank_tokenize s
  | Strategy.regexOldNorse =>
      (BaseRegexWordTokenizer.mk "old_norse" E.oldNorsePatterns).tokenize E s
  | Strategy.regexMiddleEnglish =>
      (BaseRegexWordTokenizer.mk "middle_english" E.middleEnglishPatterns).tokenize E s
  | Strategy.regexMiddleHighGerman =>
      (BaseRegexWordTokenizer.mk "middle_high_german" E.middleHighGermanPatterns).tokenize E s
  | Strategy.treebankFallback => E.treebank_tokenize s

/-- Static strategy map: the same branch conditions as
`WordTokenizer.tokenize`, on the language identifier alone. -/
def strategyOf (language : String) : Strategy :=
  if language = "akkadian" then Strategy.akkadianScript
  else if language = "arabic" then Strategy.arabyScript
  else if language = "french" then Strategy.regexOldFrench
  else if language = "greek" then Strategy.punktGreek
  else if language = "latin" then Strategy.treebankLatin
  else if language = "old_norse" then Strategy.regexOldNorse
  else if language = "middle_english" then Strategy.regexMiddleEnglish
  else if language = "middle_french" then Strategy.regexOldFrench
  else if language = "middle_high_german" then Strategy.regexMiddleHighGerman
  else if language = "old_french" then Strategy.regexOldFrench
  else Strategy.treebankFallback

/-- C4: constructing the dispatcher with a language identifier outside
the enumerated supported set fails with the unsupported-language error
(an `AssertionError` in the source, `word.py` lines 49-50); the `Except`
result carries no partial tokenizer object. -/
theorem init_unsupported_language_fails (language : String)
    (h : language ∉ available_languages) :
    WordTokenizer.init language =
      Except.error (InitError.unsupportedLanguage language) := by
  unfold WordTokenizer.init
  simp [h]

/-- C4 witness at the concrete unsupported language of the spec. -/
theorem init_unsupported_language_fails_witness :
    "klingon" ∉ available_languages ∧
      WordTokenizer.init "klingon" =
        Except.error (InitError.unsupportedLanguage "klingon") :=
  ⟨by decide, init_unsupported_language_fails "klingon" (by decide)⟩

/-- C1: the code contradicts the claim.  A dispatcher constructed for
`greek` (not the cuneiform language) does not fail on `tokenize_sign`;
it RETURNS the descriptive sentinel string
`Language must be written using cuneiform.` as its result
(`word.py` line 113), the behaviour the spec itself brands a DEFECT. -/
theorem tokenize_sign_sentinel_code_bug :
    ∃ d w, WordTokenizer.init "greek" = Except.ok (d, w) ∧
      d.language ≠ "akkadian" ∧
      d.tokenize_sign extDefault "a-na" =
        SignResult.sentinel "Language must be written using cuneiform." := by
  refine ⟨{ language := "greek" }, [], rfl, by decide, rfl⟩

/-- C7: the deprecated alias `french` is resolved to `old_french` at
construction time, a (single, non-fatal) deprecation notice is surfaced,
construction still succeeds, and for every text and every behaviour of
the external capabilities the resulting dispatcher tokenizes exactly as
one constructed with `old_french`. -/
theorem french_alias_resolves_and_tokenizes_like_old_french (E : Ext)
    (text : String) :
    ∃ d1 w1 d2 w2,
      WordTokenizer.init "french" = Except.ok (d1, w1) ∧
      WordTokenizer.init "old_french" = Except.ok (d2, w2) ∧
      d1.language = "old_french" ∧ w1 ≠ [] ∧
      d1.tokenize E text = d2.tokenize E text := by
  refine ⟨{ language := "old_french" },
    ["`french` defaults to `old_french`. `middle_french` also available."],
    { language := "old_french" }, [], rfl, rfl, rfl, by simp, rfl⟩

/-- C10: dispatchers constructed with `middle_french` and with
`old_french` return exactly the same token sequence on every text, for
every behaviour of the external capabilities: both branches build the
same regex tokenizer over the Old French pattern set
(`word.py` lines 88-91 and 96-99). -/
theorem middle_french_tokenizes_like_old_french (E : Ext) (text : String) :
    ∃ d1 w1 d2 w2,
      WordTokenizer.init "middle_french" = Except.ok (d1, w1) ∧
      WordTokenizer.init "old_french" = Except.ok (d2, w2) ∧
      d1.tokenize E text = d2.tokenize E text := by
  exact ⟨{ language := "middle_french" }, [], { language := "old_french" }, [],
    rfl, rfl, rfl⟩

/-- C8: strategy selection is a pure function of the language identifier
fixed in the dispatcher, never of the text: `tokenize` factors through
the static map `strategyOf`, which consumes only `d.language`, so the
same dispatcher applies the same single strategy variant to any two
texts. -/
theorem tokenize_factors_through_strategyOf (E : Ext) (d : WordTokenizer)
    (s : String) :
    d.tokenize E s = applyStrategy E (strategyOf d.language) s := by
  unfold WordTokenizer.tokenize strategyOf
  simp only [apply_ite (fun st => applyStrategy E st s)]
  rfl

/-- C2: the code contradicts the claim.  Training a first trainer with a
custom punctuation option mutates the shared class-level
`sent_end_chars`; a second, independent trainer with no punctuation
option then observes `[";"]` as the boundary-character configuration
instead of the default `[".", "?", "!"]` it observes when run from a
fresh state — cross-call contamination through shared mutable state. -/
theorem trainer_shared_state_contamination_code_bug :
    ∃ out1 out2 out2fresh,
      BaseSentenceTokenizerTrainer.train_sentence_tokenizer extPunktDefault
        { punctuation := some [";"] } initialPunktState "corpus a"
        = Except.ok out1 ∧
      BaseSentenceTokenizerTrainer.train_sentence_tokenizer extPunktDefault
        {} out1.state "corpus b" = Except.ok out2 ∧
      BaseSentenceTokenizerTrainer.train_sentence_tokenizer extPunktDefault
        {} initialPunktState "corpus b" = Except.ok out2fresh ∧
      out2.observed = [";"] ∧ out2fresh.observed = [".", "?", "!"] ∧
      out2.observed ≠ out2fresh.observed := by
  refine ⟨_, _, _, rfl, rfl, rfl, rfl, rfl, by decide⟩

/-- C3 counterexample: with strict true and strictPunctuation `[";"]`
supplied but the punctuation option the empty set, the configured
boundary set is the inherited default `[".", "?", "!"]`, not the union:
`";"` belongs to the union of the two options but not to the configured
set. -/
theorem strict_union_counterexample :
    ∃ out,
      BaseSentenceTokenizerTrainer.train_sentence_tokenizer extPunktDefault
        { punctuation := some [], strict := true,
          strict_punctuation := some [";"] }
        initialPunktState "corpus" = Except.ok out ∧
      out.observed = [".", "?", "!"] ∧
      (";" ∈ ([] : List String) ∨ ";" ∈ [";"]) ∧
      ";" ∉ out.observed := by
  refine ⟨_, rfl, rfl, by simp, by decide⟩

/-- Helper: the outcome of `train_sentence_tokenizer` once the
punctuation-setting step has produced the state `st1`. -/
theorem train_ok_of_setPunctuation (P : ExtPunkt)
    (tr : BaseSentenceTokenizerTrainer) (st st1 : PunktLanguageVarsState)
    (text : String) (h : setPunctuation tr st = Except.ok st1) :
    tr.train_sentence_tokenizer P st text = Except.ok
      { tokenizer := if truthy tr.abbreviations then
          { params := { abbrev_types :=
              (P.punkt_train text st1.sent_end_chars).abbrev_types ++
                tr.abbreviations.getD [] } }
        else { params := P.punkt_train text st1.sent_end_chars },
        observed := st1.sent_end_chars,
        state := st1 } := by
  unfold BaseSentenceTokenizerTrainer.train_sentence_tokenizer
  rw [h]

/-- C3 (amended): provided a NON-EMPTY punctuation option is supplied
(otherwise the punctuation-setting step is skipped and the inherited
configuration stands), the boundary-character set configured before
training — `observed`, the value the Punkt trainer receives — is the
concatenation of punctuation and strictPunctuation (hence, element for
element, their union) when strict is true with strictPunctuation
supplied, and punctuation alone when strict is false; the trained
parameters are those of the Punkt run over the corpus with exactly that
observed set, configured before training. -/
theorem configured_punctuation_before_training (P : ExtPunkt)
    (tr : BaseSentenceTokenizerTrainer) (st : PunktLanguageVarsState)
    (text : String) (p : List String)
    (hp : tr.punctuation = some p) (hne : p ≠ []) :
    (∀ sp, tr.strict = true → tr.strict_punctuation = some sp →
      ∃ out, tr.train_sentence_tokenizer P st text = Except.ok out ∧
        out.observed = p ++ sp ∧
        (∀ c, c ∈ out.observed ↔ c ∈ p ∨ c ∈ sp) ∧
        out.tokenizer.params.abbrev_types =
          (P.punkt_train text out.observed).abbrev_types ++
            (if truthy tr.abbreviations then tr.abbreviations.getD [] else [])) ∧
    (tr.strict = false →
      ∃ out, tr.train_sentence_tokenizer P st text = Except.ok out ∧
        out.observed = p ∧
        out.tokenizer.params.abbrev_types =
          (P.punkt_train text out.observed).abbrev_types ++
            (if truthy tr.abbreviations then tr.abbreviations.getD [] else [])) := by
  have htruthy : truthy tr.punctuation = true := by
    simp [truthy, hp, hne]
  constructor
  · intro sp hs hsp
    have hset : setPunctuation tr st = Except.ok { sent_end_chars := p ++ sp } := by
      unfold setPunctuation
      rw [htruthy, hs, hsp, hp]
      rfl
    refine ⟨_, train_ok_of_setPunctuation P tr st _ text hset, rfl, by simp, ?_⟩
    cases htr : truthy tr.abbreviations <;> simp [htr]
  · intro hs
    have hset : setPunctuation tr st = Except.ok { sent_end_chars := p } := by
      unfold setPunctuation
      rw [htruthy, hs, hp]
      rfl
    refine ⟨_, train_ok_of_setPunctuation P tr st _ text hset, rfl, ?_⟩
    cases htr : truthy tr.abbreviations <;> simp [htr]

/-- C3 witness: concrete strict training with punctuation `["."]` and
strictPunctuation `[";"]` configures `["."] ++ [";"]`. -/
theorem configured_punctuation_before_training_witness :
    ∃ out,
      BaseSentenceTokenizerTrainer.train_sentence_tokenizer extPunktDefault
        { punctuation := some ["."], strict := true,
          strict_punctuation := some [";"] }
        initialPunktState "corpus" = Except.ok out ∧
      out.observed = ["."] ++ [";"] ∧
      (∀ c, c ∈ out.observed ↔ c ∈ ["."] ∨ c ∈ [";"]) ∧
      out.tokenizer.params.abbrev_types =
        (extPunktDefault.punkt_train "corpus" out.observed).abbrev_types ++
          (if truthy (none : Option (List String)) then
            (none : Option (List String)).getD [] else []) :=
  (configured_punctuation_before_training extPunktDefault
    { punctuation := some ["."], strict := true,
      strict_punctuation := some [";"] }
    initialPunktState "corpus" ["."] rfl (by decide)).1 [";"] rfl rfl

/-- C9 counterexample: with strict true and no strictPunctuation (and no
punctuation option), training does not fail at all — it succeeds and
returns a tokenizer, leaving the boundary configuration untouched. -/
theorem strict_without_strict_punctuation_counterexample :
    ∃ out,
      BaseSentenceTokenizerTrainer.train_sentence_tokenizer extPunktDefault
        { strict := true } initialPunktState "corpus" = Except.ok out ∧
      out.state = initialPunktState := by
  exact ⟨_, rfl, rfl⟩

/-- C9 (amended): with strict true but no strictPunctuation supplied,
the call never fails with an invalid-configuration error: when the
punctuation option is absent or empty it succeeds silently as a no-op
(the shared boundary configuration is untouched and training observes
the inherited value), and when a non-empty punctuation option is
supplied it fails with a `TypeError` from concatenating the punctuation
list with `None` (`utils.py` line 51). -/
theorem strict_without_strict_punctuation_behaviour (P : ExtPunkt)
    (tr : BaseSentenceTokenizerTrainer) (st : PunktLanguageVarsState)
    (text : String) (hs : tr.strict = true)
    (hsp : tr.strict_punctuation = none) :
    (truthy tr.punctuation = false →
      ∃ out, tr.train_sentence_tokenizer P st text = Except.ok out ∧
        out.state = st ∧ out.observed = st.sent_end_chars) ∧
    (truthy tr.punctuation = true →
      tr.train_sentence_tokenizer P st text =
        Except.error (PyError.typeError
          "can only concatenate list (not NoneType) to list")) := by
  constructor
  · intro hfalse
    have hset : setPunctuation tr st = Except.ok st := by
      unfold setPunctuation
      rw [hfalse]
      rfl
    exact ⟨_, train_ok_of_setPunctuation P tr st st text hset, rfl, rfl⟩
  · intro htrue
    have hset : setPunctuation tr st = Except.error (PyError.typeError
        "can only concatenate list (not NoneType) to list") := by
      unfold setPunctuation
      rw [htrue, hs, hsp]
      rfl
    unfold BaseSentenceTokenizerTrainer.train_sentence_tokenizer
    rw [hset]

/-- C9 witness at a concrete trainer with strict true and nothing else
supplied. -/
theorem strict_without_strict_punctuation_behaviour_witness :
    ∃ out,
      BaseSentenceTokenizerTrainer.train_sentence_tokenizer extPunktDefault
        { strict := true } { sent_end_chars := ["."] } "corpus"
        = Except.ok out ∧
      out.state = { sent_end_chars := ["."] } ∧
      out.observed = PunktLanguageVarsState.sent_end_chars
        { sent_end_chars := ["."] } :=
  (strict_without_strict_punctuation_behaviour extPunktDefault
    { strict := true } { sent_end_chars := ["."] } "corpus" rfl rfl).1 rfl

/-- C5: every abbreviation in the supplied abbreviations option is a
member of the returned tokenizer's abbreviation set, and when the option
is non-empty the final abbreviation set is exactly the set discovered by
the single statistical training run (over the corpus, with the observed
boundary configuration) with the given abbreviations appended verbatim —
injected after training, case-sensitively, with no second discovery
run. -/
theorem abbreviations_forcibly_injected (P : ExtPunkt)
    (tr : BaseSentenceTokenizerTrainer) (st : PunktLanguageVarsState)
    (text : String) (abbrevs : List String)
    (ha : tr.abbreviations = some abbrevs) (out : TrainOutcome)
    (hok : tr.train_sentence_tokenizer P st text = Except.ok out) :
    (∀ a ∈ abbrevs, a ∈ out.tokenizer.params.abbrev_types) ∧
    (abbrevs ≠ [] → out.tokenizer.params.abbrev_types =
      (P.punkt_train text out.observed).abbrev_types ++ abbrevs) := by
  by_cases he : abbrevs = []
  · subst he
    refine ⟨by simp, by simp⟩
  · have htr : truthy tr.abbreviations = true := by
      simp [truthy, ha, he]
    cases hset : setPunctuation tr st with
    | error e =>
      rw [BaseSentenceTokenizerTrainer.train_sentence_tokenizer, hset] at hok
      exact absurd hok (by simp)
    | ok st1 =>
      rw [train_ok_of_setPunctuation P tr st st1 text hset] at hok
      have hout := (Except.ok.injEq _ _).mp hok
      subst hout
      have htr2 : truthy (some abbrevs) = true := by simp [truthy, he]
      refine ⟨?_, ?_⟩
      · intro a haa
        simp only [ha, Option.getD_some, htr2, if_true]
        exact List.mem_append_right _ haa
      · intro _
        simp only [ha, Option.getD_some, htr2, if_true]

/-- C5 witness: a concrete training call with abbreviations `["Dr"]`. -/
theorem abbreviations_forcibly_injected_witness :
    (∀ a ∈ ["Dr"],
      a ∈ ({ tokenizer := { params := { abbrev_types := ["Dr"] } },
             observed := [".", "?", "!"],
             state := initialPunktState } : TrainOutcome).tokenizer.params.abbrev_types) ∧
    (["Dr"] ≠ [] →
      ({ tokenizer := { params := { abbrev_types := ["Dr"] } },
         observed := [".", "?", "!"],
         state := initialPunktState } : TrainOutcome).tokenizer.params.abbrev_types =
        (extPunktDefault.punkt_train "corpus"
          ({ tokenizer := { params := { abbrev_types := ["Dr"] } },
             observed := [".", "?", "!"],
             state := initialPunktState } : TrainOutcome).observed).abbrev_types
          ++ ["Dr"]) :=
  abbreviations_forcibly_injected extPunktDefault
    { abbreviations := some ["Dr"] } initialPunktState "corpus" ["Dr"] rfl
    { tokenizer := { params := { abbrev_types := ["Dr"] } },
      observed := [".", "?", "!"], state := initialPunktState } rfl

end CLTK
